import Mathlib

/-!
Shallow embedding of `src/Software/Particle_SW/SolenoidFirmware/src/solenoidBox.ino`
(RFID_Lock solenoid lock firmware).

Modelling conventions:

* The firmware's externally-supplied constants (`checkinEventSecret` from
  `rfidkeys.h`, `DEVICETYPE_UNDEFINED` and `DEVICETYPE_CHECKIN` from
  `mnutils.h`) are parameters gathered in a `Consts` structure; nothing below
  depends on their concrete values.
* JSON deserialization is performed by the external ArduinoJson library.  We
  embed its observable behaviour at the point of use: a payload either fails to
  deserialize (`JsonParse.parseErr`) or yields a document
  (`JsonParse.parsed doc`) whose fields are `Option`-valued, since a
  syntactically valid payload may omit any field.  ArduinoJson's conversions at
  the call sites are embedded precisely:
  - `int secret = docJSON["secret"];` — a missing/null variant converts to the
    integer 0 (`jsonIntOfVariant`);
  - `docJSON["deviceType"] == someInt` — a missing/null variant compares
    unequal to every integer (`jsonVariantEqInt`);
  - `String s = v.as<char*>();` — a missing/null variant yields the empty
    string (`jsonStrOfVariant`).
* Side effects on external collaborators (`tripSolenoid`, `logToDB` records
  named Unlock, `debugEvent` overrun log, `Particle.publish`) are modelled as
  counters so that "exactly once" is provable.
* `unsigned long` arithmetic on `millis()` is modelled on `Nat` with explicit
  wraparound modulo 2^32 (`usub32`).
-/

namespace SolenoidBox

/-- Constants supplied by headers outside this translation unit
(`rfidkeys.h`, `mnutils.h`); the firmware only compares against them. -/
structure Consts where
  checkinEventSecret : Int
  DEVICETYPE_UNDEFINED : Int
  DEVICETYPE_CHECKIN : Int
  deriving DecidableEq, Repr

/-- The persisted device identity record (fields of `EEPROMdata` used by this
file): `deviceType` and `lockListenType`. -/
structure EEPROMdataStruct where
  deviceType : Int
  lockListenType : Int
  deriving DecidableEq, Repr

/-- The global station-configuration record `g_stationConfig`
(fields exactly as assigned in `clearStationConfig`). -/
structure StationConfig where
  isValid : Bool
  deviceType : Int
  deviceName : String
  LCDName : String
  photoDisplay : String
  logEvent : String
  OKKeywords : String
  deriving DecidableEq, Repr

/-- `clearStationConfig` (solenoidBox.ino lines 370-380): sets `isValid` to
false, `deviceType` to 0 and every string field to the empty string. -/
def clearStationConfig : StationConfig :=
  { isValid := false
    deviceType := 0
    deviceName := ""
    LCDName := ""
    photoDisplay := ""
    logEvent := ""
    OKKeywords := "" }

/-- Modelled from the spec: `setStationConfig` is declared in `mnutils.h`,
whose implementation is not under `src/`.  Spec section 4.2: on a matching
response "atomically replace `StationConfig` with the new values and set
`isValid=true`"; argument order is the one at the call sites
(`devType, deviceName, LCDName, logEvent, photoDisplay, OKKeywords`). -/
def setStationConfig (devType : Int) (deviceName LCDName logEvent photoDisplay OKKeywords : String) : StationConfig :=
  { isValid := true
    deviceType := devType
    deviceName := deviceName
    LCDName := LCDName
    photoDisplay := photoDisplay
    logEvent := logEvent
    OKKeywords := OKKeywords }

/-- Result of running ArduinoJson `deserializeJson` on a payload: either a
deserialization error, or a document of type `α`. -/
inductive JsonParse (α : Type) where
  | parseErr : JsonParse α
  | parsed : α → JsonParse α
  deriving DecidableEq, Repr

/-- The fields of a deserialized checkin payload that `eventcheckin` reads.
Each is optional: a payload can deserialize successfully while omitting the
field, in which case the lookup yields a null variant. -/
structure CheckinDoc where
  secret : Option Int
  deviceType : Option Int
  deriving DecidableEq, Repr

/-- ArduinoJson conversion of a (possibly null) variant to `int`:
a missing/null variant converts to 0. -/
def jsonIntOfVariant (v : Option Int) : Int := v.getD 0

/-- ArduinoJson comparison of a (possibly null) variant against an integer:
equal exactly when the variant holds that integer; a null variant is unequal
to every integer. -/
def jsonVariantEqInt (v : Option Int) (n : Int) : Bool :=
  match v with
  | some m => m == n
  | none => false

/-- ArduinoJson conversion of a (possibly null) variant to a string via
`as<char*>`: a missing/null variant yields a null pointer, and the Wiring
`String` constructor turns a null pointer into the empty string. -/
def jsonStrOfVariant (v : Option String) : String := v.getD ""

/-- The four observable outcomes of checkin validation (spec section 4.1). -/
inductive Outcome where
  | parseError : Outcome
  | secretMismatch : Outcome
  | accepted : Outcome
  | rejected : Outcome
  deriving DecidableEq, Repr

/-- Observable result of one `eventcheckin` run: the outcome, the number of
`tripSolenoid` invocations, and the number of Unlock audit records sent to
`logToDB`. -/
structure CheckinResult where
  outcome : Outcome
  trips : Nat
  unlockLogs : Nat
  deriving DecidableEq, Repr

/-- `eventcheckin` (solenoidBox.ino lines 289-326), after deserialization:
on a parse error, log and stop; otherwise read `secret` (missing converts
to 0), reject with a bad-secret log when it differs from
`checkinEventSecret`; with the correct secret, compare the `deviceType`
variant against `EEPROMdata.lockListenType` and, on equality, call
`tripSolenoid()` once and emit one Unlock record to `logToDB`. -/
def eventcheckin (c : Consts) (ee : EEPROMdataStruct) (p : JsonParse CheckinDoc) : CheckinResult :=
  match p with
  | .parseErr =>
      { outcome := .parseError, trips := 0, unlockLogs := 0 }
  | .parsed docJSON =>
      let secret : Int := jsonIntOfVariant docJSON.secret
      if secret ≠ c.checkinEventSecret then
        { outcome := .secretMismatch, trips := 0, unlockLogs := 0 }
      else
        if jsonVariantEqInt docJSON.deviceType ee.lockListenType then
          { outcome := .accepted, trips := 1, unlockLogs := 1 }
        else
          { outcome := .rejected, trips := 0, unlockLogs := 0 }

/-- `strcpy_safe` into `char temp[1000]` (solenoidBox.ino lines 80-87, 294-295):
copies at most 1000 bytes and forces `temp[999] = 0`, so the parsed text is
the first 999 characters of the payload. -/
def strcpy_safe1000 (s : String) : String := String.mk (s.data.take 999)

/-- `eventcheckin` from the raw payload string: the payload is first copied
into the fixed 1000-byte buffer (truncating to 999 characters) and then
deserialized.  The deserializer itself is the external ArduinoJson library,
abstracted as the function argument. -/
def eventcheckinStr (deserialize : String → JsonParse CheckinDoc) (c : Consts) (ee : EEPROMdataStruct) (data : String) : CheckinResult :=
  eventcheckin c ee (deserialize (strcpy_safe1000 data))

/-- The main-loop state enumeration `mlsState` (solenoidBox.ino lines 609-614). -/
inductive MlsState where
  | mlsASKFORSTATIONCONFIG : MlsState
  | mlsWAITFORSTATIONCONFIG : MlsState
  | mlsDEVICELOOP : MlsState
  | mlsERROR : MlsState
  deriving DecidableEq, Repr

/-- The lockbox-loop state enumeration `llbxState` (solenoidBox.ino lines 467-471). -/
inductive LlbxState where
  | llbxINIT : LlbxState
  | llbxWAITFOREVENTDATA : LlbxState
  | llbxERROR : LlbxState
  deriving DecidableEq, Repr

/-- The firmware's mutable state relevant to the embedded logic: the two
static state-machine variables, the single-slot checkin buffer
`mg_checkinEventData`, the station config, the in-memory `EEPROMdata`
identity, and counters for the observable external effects
(`tripSolenoid` calls, Unlock records, "checkin buffer overrun" debug logs,
`fdbGetStationConfig` publishes, and the number of buffered messages handed
to `eventcheckin`). -/
structure SysState where
  mainloopState : MlsState
  processStart : Nat
  llbxloopState : LlbxState
  mg_checkinEventData : String
  g_stationConfig : StationConfig
  eeprom : EEPROMdataStruct
  trips : Nat
  unlockLogs : Nat
  overrunLogs : Nat
  configPublishes : Nat
  checkinsProcessed : Nat
  deriving DecidableEq, Repr

/-- `matchesFrom pat cs`: `pat` occurs at the start of `cs`. -/
def matchesFrom : List Char → List Char → Bool
  | [], _ => true
  | _ :: _, [] => false
  | a :: as, b :: bs => a == b && matchesFrom as bs

/-- Wiring `String::indexOf(pat) >= 0`: `pat` occurs somewhere in `s`. -/
def containsSubstr (s pat : String) : Bool :=
  (List.range (s.data.length + 1)).any (fun i => matchesFrom pat.data (s.data.drop i))

/-- `particleCallbackEventCheckin` (solenoidBox.ino lines 260-287), restricted
to the modelled state (the `allowDebugToPublish` gating touches only the
excluded logging subsystem): if the event name contains "checkin", then
either the single-slot buffer is still occupied (`length > 0`) and the new
data is dropped with one overrun debug log, or the data is stored in the
buffer. -/
def particleCallbackEventCheckin (event data : String) (s : SysState) : SysState :=
  if containsSubstr event "checkin" then
    if s.mg_checkinEventData.length > 0 then
      { s with overrunLogs := s.overrunLogs + 1 }
    else
      { s with mg_checkinEventData := data }
  else
    s

/-- `loopLockbox` (solenoidBox.ino lines 465-502): a three-state machine;
in `llbxWAITFOREVENTDATA`, when the buffer is non-empty, run
`eventcheckin` on the buffered payload and then clear the buffer. -/
def loopLockbox (deserialize : String → JsonParse CheckinDoc) (c : Consts) (s : SysState) : SysState :=
  match s.llbxloopState with
  | .llbxINIT =>
      { s with llbxloopState := .llbxWAITFOREVENTDATA }
  | .llbxWAITFOREVENTDATA =>
      if s.mg_checkinEventData.length > 0 then
        let r := eventcheckinStr deserialize c s.eeprom s.mg_checkinEventData
        { s with
            trips := s.trips + r.trips
            unlockLogs := s.unlockLogs + r.unlockLogs
            checkinsProcessed := s.checkinsProcessed + 1
            mg_checkinEventData := "" }
      else
        s
  | .llbxERROR => s

/-- `fdbGetStationConfig` (solenoidBox.ino lines 386-392): clear the station
config, then publish one `fdbGetStationConfig` request carrying the device
type. -/
def fdbGetStationConfig (s : SysState) : SysState :=
  { s with
      g_stationConfig := clearStationConfig
      configPublishes := s.configPublishes + 1 }

/-- The fields of element 0 of a deserialized station-config response that
`fdbReceiveStationConfig` reads.  All are optional: the lookup of a missing
field (or of element 0 of a non-array document) yields a null variant. -/
structure ConfigDoc where
  deviceType : Option Int
  deviceName : Option String
  LCDName : Option String
  logEvent : Option String
  photoDisplay : Option String
  OKKeywords : Option String
  deriving DecidableEq, Repr

/-- `fdbReceiveStationConfig` (solenoidBox.ino lines 398-443), after
deserialization: on a parse error only a debug log is emitted; otherwise, if
`root_0["deviceType"].as<int>()` equals `EEPROMdata.deviceType`, the six
fields are read and passed to `setStationConfig`; otherwise only a mismatch
debug log is emitted and the config is left untouched. -/
def fdbReceiveStationConfig (p : JsonParse ConfigDoc) (s : SysState) : SysState :=
  match p with
  | .parseErr => s
  | .parsed root_0 =>
      if jsonIntOfVariant root_0.deviceType == s.eeprom.deviceType then
        { s with
            g_stationConfig :=
              setStationConfig
                (jsonIntOfVariant root_0.deviceType)
                (jsonStrOfVariant root_0.deviceName)
                (jsonStrOfVariant root_0.LCDName)
                (jsonStrOfVariant root_0.logEvent)
                (jsonStrOfVariant root_0.photoDisplay)
                (jsonStrOfVariant root_0.OKKeywords) }
      else
        s

/-- `unsigned long` subtraction `a - b` modulo 2^32, as computed by
`millis() - processStart` on 32-bit unsigned arithmetic. -/
def usub32 (a b : Nat) : Nat :=
  (a + (4294967296 - b % 4294967296)) % 4294967296

/-- One tick of `loop` (solenoidBox.ino lines 606-695), restricted to the
dispatch state machine; `m` is the value of `millis()` at this tick.  The
per-tick maintenance (heartbeat LED, debug-event pump, daily reboot
scheduling) touches only excluded collaborators.  In
`mlsASKFORSTATIONCONFIG`, a device type equal to `DEVICETYPE_UNDEFINED` or
`DEVICETYPE_CHECKIN` receives a synthetic local config and the loop enters
`mlsDEVICELOOP`; any other type records `processStart`, requests the config
and enters `mlsWAITFORSTATIONCONFIG`.  In `mlsWAITFORSTATIONCONFIG`, a tick
more than 20000 ms after the request enters `mlsERROR`; otherwise, a valid
config enters `mlsDEVICELOOP`, else the state is kept.  `mlsDEVICELOOP` runs
`loopLockbox`; `mlsERROR` stays in `mlsERROR`. -/
def loop (deserialize : String → JsonParse CheckinDoc) (c : Consts) (m : Nat) (s : SysState) : SysState :=
  match s.mainloopState with
  | .mlsASKFORSTATIONCONFIG =>
      if s.eeprom.deviceType == c.DEVICETYPE_UNDEFINED
          || s.eeprom.deviceType == c.DEVICETYPE_CHECKIN then
        let cfg :=
          if s.eeprom.deviceType == c.DEVICETYPE_UNDEFINED then
            setStationConfig c.DEVICETYPE_UNDEFINED "Undefined" "Undefined" "Undefined" "" ""
          else if s.eeprom.deviceType == c.DEVICETYPE_CHECKIN then
            setStationConfig c.DEVICETYPE_CHECKIN "CheckIn" "Check In" "Check In" "" ""
          else
            setStationConfig 99999 "code error 1" "code error 1" "code error 1" "" ""
        { s with g_stationConfig := cfg, mainloopState := .mlsDEVICELOOP }
      else
        let s1 := fdbGetStationConfig { s with processStart := m }
        { s1 with mainloopState := .mlsWAITFORSTATIONCONFIG }
  | .mlsWAITFORSTATIONCONFIG =>
      if usub32 m s.processStart > 20000 then
        { s with mainloopState := .mlsERROR }
      else if s.g_stationConfig.isValid then
        { s with mainloopState := .mlsDEVICELOOP }
      else
        s
  | .mlsDEVICELOOP => loopLockbox deserialize c s
  | .mlsERROR =>
      { s with mainloopState := .mlsERROR }

/-- Iterate `loop` over a list of tick times. -/
def runTicks (deserialize : String → JsonParse CheckinDoc) (c : Consts) (ts : List Nat) (s : SysState) : SysState :=
  ts.foldl (fun st t => loop deserialize c t st) s

/-- Accumulate the leading decimal digits, as the digit loop of `atol` does. -/
def atolDigits (acc : Nat) : List Char → Nat
  | ch :: rest => if ch.isDigit then atolDigits (acc * 10 + (ch.toNat - 48)) rest else acc
  | [] => acc

/-- Whitespace as recognised by `isspace` in the C locale. -/
def isSpaceByte (ch : Char) : Bool :=
  ch == ' ' || ch == '\t' || ch == '\n' || ch == '\x0b' || ch == '\x0c' || ch == '\r'

/-- Wiring `String::toInt()`, which is `atol` on the underlying C string:
skip leading whitespace, consume an optional sign, then the leading run of
decimal digits; with no digits the value is 0.  (Overflow of `long` is not
modelled; the claims concern small inputs.) -/
def wiringToInt (s : String) : Int :=
  match s.data.dropWhile isSpaceByte with
  | '-' :: rest => - (atolDigits 0 rest : Int)
  | '+' :: rest => (atolDigits 0 rest : Int)
  | rest => (atolDigits 0 rest : Int)

/-- Observable result of one cloud set-type call: the returned status, the
in-memory `EEPROMdata` after the call, the record pushed to durable storage
by `EEPROMWrite()` (if any), and the delay passed to `rebootSet` (if any). -/
structure CloudSetResult where
  ret : Int
  eeprom : EEPROMdataStruct
  eepromWritten : Option EEPROMdataStruct
  rebootDelay : Option Nat
  deriving DecidableEq, Repr

/-- `cloudSetDeviceType` (solenoidBox.ino lines 186-211): `data.toInt()` equal
to -1 returns the current `EEPROMdata.deviceType`; otherwise, when the parsed
value is non-zero (C truthiness) or `data` is exactly "0", the field is set,
`EEPROMWrite()` pushes the record (containing the new value) to EEPROM, the
in-memory field is restored to the old value, a reboot is scheduled in
1000 ms and 0 is returned; any other input returns 1 with no effect. -/
def cloudSetDeviceType (ee : EEPROMdataStruct) (data : String) : CloudSetResult :=
  let deviceType : Int := wiringToInt data
  if deviceType == -1 then
    { ret := ee.deviceType, eeprom := ee, eepromWritten := none, rebootDelay := none }
  else if deviceType ≠ 0 ∨ data == "0" then
    let oldType := ee.deviceType
    let ee1 := { ee with deviceType := deviceType }
    let ee2 := { ee1 with deviceType := oldType }
    { ret := 0, eeprom := ee2, eepromWritten := some ee1, rebootDelay := some 1000 }
  else
    { ret := 1, eeprom := ee, eepromWritten := none, rebootDelay := none }

/-- `cloudSetLockListenDevType` (solenoidBox.ino lines 217-241): the same
contract as `cloudSetDeviceType`, applied to `EEPROMdata.lockListenType`. -/
def cloudSetLockListenDevType (ee : EEPROMdataStruct) (data : String) : CloudSetResult :=
  let lockListenType : Int := wiringToInt data
  if lockListenType == -1 then
    { ret := ee.lockListenType, eeprom := ee, eepromWritten := none, rebootDelay := none }
  else if lockListenType ≠ 0 ∨ data == "0" then
    let oldType := ee.lockListenType
    let ee1 := { ee with lockListenType := lockListenType }
    let ee2 := { ee1 with lockListenType := oldType }
    { ret := 0, eeprom := ee2, eepromWritten := some ee1, rebootDelay := some 1000 }
  else
    { ret := 1, eeprom := ee, eepromWritten := none, rebootDelay := none }

/-- C1: for every checkin payload that deserializes successfully, whose
secret field equals the configured checkin secret and whose deviceType field
equals the configured lockListenType, `eventcheckin` calls `tripSolenoid`
exactly once and emits exactly one Unlock audit-log record. -/
theorem eventcheckin_valid_checkin_trips_once (c : Consts) (ee : EEPROMdataStruct)
    (doc : CheckinDoc)
    (hs : doc.secret = some c.checkinEventSecret)
    (hd : doc.deviceType = some ee.lockListenType) :
    eventcheckin c ee (.parsed doc) =
      { outcome := .accepted, trips := 1, unlockLogs := 1 } := by
  simp [eventcheckin, jsonIntOfVariant, jsonVariantEqInt, hs, hd]

/-- Witness for C1: secret 12345 and deviceType 105 against configured secret
12345 and lockListenType 105. -/
theorem eventcheckin_valid_checkin_trips_once_witness :
    eventcheckin ⟨12345, 0, 1⟩ ⟨105, 105⟩ (.parsed ⟨some 12345, some 105⟩) =
      { outcome := .accepted, trips := 1, unlockLogs := 1 } :=
  eventcheckin_valid_checkin_trips_once ⟨12345, 0, 1⟩ ⟨105, 105⟩ ⟨some 12345, some 105⟩ rfl rfl

/-- C2: for every checkin payload that deserializes successfully but whose
secret value differs from the configured checkin secret, `eventcheckin`
reports SecretMismatch and never actuates the lock; the result is moreover
the same whatever the deviceType field holds, so an invalid secret
short-circuits before the device-type comparison. -/
theorem eventcheckin_bad_secret_never_trips (c : Consts) (ee : EEPROMdataStruct)
    (doc : CheckinDoc)
    (hs : jsonIntOfVariant doc.secret ≠ c.checkinEventSecret) :
    eventcheckin c ee (.parsed doc) =
      { outcome := .secretMismatch, trips := 0, unlockLogs := 0 } ∧
    ∀ dt : Option Int,
      eventcheckin c ee (.parsed { doc with deviceType := dt }) =
        { outcome := .secretMismatch, trips := 0, unlockLogs := 0 } := by
  constructor
  · simp [eventcheckin, hs]
  · intro dt
    simp [eventcheckin, hs]

/-- Witness for C2: secret 99999 against configured secret 12345, with the
deviceType field even matching the listen type. -/
theorem eventcheckin_bad_secret_never_trips_witness :
    eventcheckin ⟨12345, 0, 1⟩ ⟨105, 105⟩ (.parsed ⟨some 99999, some 105⟩) =
      { outcome := .secretMismatch, trips := 0, unlockLogs := 0 } ∧
    ∀ dt : Option Int,
      eventcheckin ⟨12345, 0, 1⟩ ⟨105, 105⟩ (.parsed ⟨some 99999, dt⟩) =
        { outcome := .secretMismatch, trips := 0, unlockLogs := 0 } :=
  eventcheckin_bad_secret_never_trips ⟨12345, 0, 1⟩ ⟨105, 105⟩ ⟨some 99999, some 105⟩ (by decide)

/-- C3: for every checkin payload that deserializes successfully, whose
secret field equals the configured checkin secret but whose deviceType field
is not equal to the configured lockListenType, `eventcheckin` never calls
`tripSolenoid` (the result is Reject with no actuation and no Unlock
record). -/
theorem eventcheckin_wrong_devtype_never_trips (c : Consts) (ee : EEPROMdataStruct)
    (doc : CheckinDoc)
    (hs : doc.secret = some c.checkinEventSecret)
    (hd : doc.deviceType ≠ some ee.lockListenType) :
    eventcheckin c ee (.parsed doc) =
      { outcome := .rejected, trips := 0, unlockLogs := 0 } := by
  have hv : jsonVariantEqInt doc.deviceType ee.lockListenType = false := by
    cases hdt : doc.deviceType with
    | none => rfl
    | some d =>
        simp only [jsonVariantEqInt, beq_iff_eq, beq_eq_false_iff_ne, ne_eq]
        intro h
        exact hd (by rw [hdt, h])
  simp [eventcheckin, jsonIntOfVariant, hs, hv]

/-- Witness for C3: secret 12345 and deviceType 105 against configured secret
12345 and lockListenType 106. -/
theorem eventcheckin_wrong_devtype_never_trips_witness :
    eventcheckin ⟨12345, 0, 1⟩ ⟨105, 106⟩ (.parsed ⟨some 12345, some 105⟩) =
      { outcome := .rejected, trips := 0, unlockLogs := 0 } :=
  eventcheckin_wrong_devtype_never_trips ⟨12345, 0, 1⟩ ⟨105, 106⟩ ⟨some 12345, some 105⟩
    rfl (by decide)

/-- C4 counterexample: a checkin payload that omits the required secret field
(here one carrying only deviceType 105) still deserializes successfully;
ArduinoJson reads the missing field as 0, so against configured secret 12345
and lockListenType 105 the outcome is SecretMismatch — not ParseError as the
claim states. -/
theorem eventcheckin_missing_secret_not_parse_error :
    (eventcheckin ⟨12345, 0, 1⟩ ⟨105, 105⟩ (.parsed ⟨none, some 105⟩)).outcome
        = .secretMismatch ∧
    (eventcheckin ⟨12345, 0, 1⟩ ⟨105, 105⟩ (.parsed ⟨none, some 105⟩)).outcome
        ≠ .parseError := by
  decide

/-- C4 amended: a payload whose deserialization fails yields ParseError and no
actuation; a payload missing the secret field deserializes successfully, the
missing field reads as 0, so with a nonzero configured secret the outcome is
SecretMismatch (not ParseError) with no actuation; a payload missing the
deviceType field never actuates either. -/
theorem eventcheckin_parse_error_and_missing_fields (c : Consts) (ee : EEPROMdataStruct)
    (doc : CheckinDoc) :
    eventcheckin c ee .parseErr =
      { outcome := .parseError, trips := 0, unlockLogs := 0 } ∧
    (doc.secret = none → c.checkinEventSecret ≠ 0 →
      eventcheckin c ee (.parsed doc) =
        { outcome := .secretMismatch, trips := 0, unlockLogs := 0 }) ∧
    (doc.deviceType = none → (eventcheckin c ee (.parsed doc)).trips = 0) := by
  refine ⟨rfl, fun hs hz => ?_, fun hd => ?_⟩
  · have : jsonIntOfVariant doc.secret ≠ c.checkinEventSecret := by
      rw [hs]; exact fun h => hz h.symm
    simp [eventcheckin, this]
  · have hv : jsonVariantEqInt doc.deviceType ee.lockListenType = false := by
      rw [hd]; rfl
    simp only [eventcheckin, hv]
    split <;> simp

/-- Witness for C4 amended: the all-fields-missing payload against configured
secret 12345 and lockListenType 105. -/
theorem eventcheckin_parse_error_and_missing_fields_witness :
    (eventcheckin ⟨12345, 0, 1⟩ ⟨105, 105⟩ .parseErr =
      { outcome := .parseError, trips := 0, unlockLogs := 0 }) ∧
    (eventcheckin ⟨12345, 0, 1⟩ ⟨105, 105⟩ (.parsed ⟨none, none⟩) =
      { outcome := .secretMismatch, trips := 0, unlockLogs := 0 }) ∧
    (eventcheckin ⟨12345, 0, 1⟩ ⟨105, 105⟩ (.parsed ⟨none, none⟩)).trips = 0 := by
  have h := eventcheckin_parse_error_and_missing_fields ⟨12345, 0, 1⟩ ⟨105, 105⟩ ⟨none, none⟩
  exact ⟨h.1, h.2.1 rfl (by decide), h.2.2 rfl⟩

/-- Helper: the read-back branch of both set-type operations. -/
theorem cloudSetType_neg1_eq (ee : EEPROMdataStruct) (data : String)
    (h : wiringToInt data = -1) :
    cloudSetDeviceType ee data =
      { ret := ee.deviceType, eeprom := ee, eepromWritten := none, rebootDelay := none } ∧
    cloudSetLockListenDevType ee data =
      { ret := ee.lockListenType, eeprom := ee, eepromWritten := none, rebootDelay := none } := by
  constructor <;> simp [cloudSetDeviceType, cloudSetLockListenDevType, h]

/-- Helper: the success branch of both set-type operations; the restore of
the in-memory field makes the post-call record equal to the pre-call one. -/
theorem cloudSetType_success_eq (ee : EEPROMdataStruct) (data : String)
    (h1 : wiringToInt data ≠ -1) (h2 : wiringToInt data ≠ 0 ∨ data = "0") :
    cloudSetDeviceType ee data =
      { ret := 0, eeprom := ee,
        eepromWritten := some { ee with deviceType := wiringToInt data },
        rebootDelay := some 1000 } ∧
    cloudSetLockListenDevType ee data =
      { ret := 0, eeprom := ee,
        eepromWritten := some { ee with lockListenType := wiringToInt data },
        rebootDelay := some 1000 } := by
  have hb1 : (wiringToInt data == (-1 : Int)) = false := by
    simpa using h1
  have hb2 : wiringToInt data ≠ 0 ∨ (data == "0") = true := by
    rcases h2 with h | h
    · exact Or.inl h
    · exact Or.inr (by simpa using h)
  constructor <;>
    simp only [cloudSetDeviceType, cloudSetLockListenDevType, hb1, Bool.false_eq_true,
      if_false, if_pos hb2]

/-- Helper: the invalid-input branch of both set-type operations. -/
theorem cloudSetType_invalid_eq (ee : EEPROMdataStruct) (data : String)
    (h1 : wiringToInt data ≠ -1) (h2 : wiringToInt data = 0) (h3 : data ≠ "0") :
    cloudSetDeviceType ee data =
      { ret := 1, eeprom := ee, eepromWritten := none, rebootDelay := none } ∧
    cloudSetLockListenDevType ee data =
      { ret := 1, eeprom := ee, eepromWritten := none, rebootDelay := none } := by
  have hb1 : (wiringToInt data == (-1 : Int)) = false := by simpa using h1
  have hb2 : ¬(wiringToInt data ≠ 0 ∨ (data == "0") = true) := by
    rintro (h | h)
    · exact h h2
    · exact h3 (by simpa using h)
  constructor <;>
    simp only [cloudSetDeviceType, cloudSetLockListenDevType, hb1, Bool.false_eq_true,
      if_false, if_neg hb2]

/-- C7 counterexample: "00" is a non-blank numeric input other than "-1"
(its integer parse is 0), yet both set-type operations return 1 and persist
nothing, because the truthiness test accepts a zero value only as the exact
string "0". -/
theorem cloudSetType_zerozero_rejected :
    wiringToInt "00" = 0 ∧
    cloudSetDeviceType ⟨105, 105⟩ "00" =
      { ret := 1, eeprom := ⟨105, 105⟩, eepromWritten := none, rebootDelay := none } ∧
    cloudSetLockListenDevType ⟨105, 105⟩ "00" =
      { ret := 1, eeprom := ⟨105, 105⟩, eepromWritten := none, rebootDelay := none } := by
  decide

/-- C7 amended: for both set-type operations, an input parsing to -1 returns
the current stored value with no mutation; an input whose integer parse is
nonzero, or the exact string "0", persists the new value to durable storage,
schedules a reboot (1000 ms) and returns 0; every other input — including
non-canonical spellings of zero such as "00" — returns 1 with no effect. -/
theorem cloudSetType_contract (ee : EEPROMdataStruct) (data : String) :
    (wiringToInt data = -1 →
      cloudSetDeviceType ee data =
        { ret := ee.deviceType, eeprom := ee, eepromWritten := none, rebootDelay := none } ∧
      cloudSetLockListenDevType ee data =
        { ret := ee.lockListenType, eeprom := ee, eepromWritten := none, rebootDelay := none }) ∧
    (wiringToInt data ≠ -1 → wiringToInt data ≠ 0 ∨ data = "0" →
      cloudSetDeviceType ee data =
        { ret := 0, eeprom := ee,
          eepromWritten := some { ee with deviceType := wiringToInt data },
          rebootDelay := some 1000 } ∧
      cloudSetLockListenDevType ee data =
        { ret := 0, eeprom := ee,
          eepromWritten := some { ee with lockListenType := wiringToInt data },
          rebootDelay := some 1000 }) ∧
    (wiringToInt data ≠ -1 → wiringToInt data = 0 → data ≠ "0" →
      cloudSetDeviceType ee data =
        { ret := 1, eeprom := ee, eepromWritten := none, rebootDelay := none } ∧
      cloudSetLockListenDevType ee data =
        { ret := 1, eeprom := ee, eepromWritten := none, rebootDelay := none }) :=
  ⟨fun h => cloudSetType_neg1_eq ee data h,
   fun h1 h2 => cloudSetType_success_eq ee data h1 h2,
   fun h1 h2 h3 => cloudSetType_invalid_eq ee data h1 h2 h3⟩

/-- Witness for C7 amended: the three branches exercised at inputs "-1",
"7" and " 00" with stored identity 105/105. -/
theorem cloudSetType_contract_witness :
    (cloudSetDeviceType ⟨105, 105⟩ "-1" =
      { ret := 105, eeprom := ⟨105, 105⟩, eepromWritten := none, rebootDelay := none } ∧
     cloudSetLockListenDevType ⟨105, 105⟩ "-1" =
      { ret := 105, eeprom := ⟨105, 105⟩, eepromWritten := none, rebootDelay := none }) ∧
    (cloudSetDeviceType ⟨105, 105⟩ "7" =
      { ret := 0, eeprom := ⟨105, 105⟩, eepromWritten := some ⟨7, 105⟩,
        rebootDelay := some 1000 } ∧
     cloudSetLockListenDevType ⟨105, 105⟩ "7" =
      { ret := 0, eeprom := ⟨105, 105⟩, eepromWritten := some ⟨105, 7⟩,
        rebootDelay := some 1000 }) ∧
    (cloudSetDeviceType ⟨105, 105⟩ " 00" =
      { ret := 1, eeprom := ⟨105, 105⟩, eepromWritten := none, rebootDelay := none } ∧
     cloudSetLockListenDevType ⟨105, 105⟩ " 00" =
      { ret := 1, eeprom := ⟨105, 105⟩, eepromWritten := none, rebootDelay := none }) :=
  ⟨(cloudSetType_contract ⟨105, 105⟩ "-1").1 (by decide),
   (cloudSetType_contract ⟨105, 105⟩ "7").2.1 (by decide) (by decide),
   (cloudSetType_contract ⟨105, 105⟩ " 00").2.2 (by decide) (by decide) (by decide)⟩

/-- C8: every successful set-type invocation pushes the record holding the
new value to durable storage immediately, while the in-memory identity
record after the call equals its value before the call (the new value takes
effect only after the scheduled reboot). -/
theorem cloudSetType_deferred_mutation (ee : EEPROMdataStruct) (data : String)
    (h1 : wiringToInt data ≠ -1) (h2 : wiringToInt data ≠ 0 ∨ data = "0") :
    (cloudSetDeviceType ee data).eepromWritten =
        some { ee with deviceType := wiringToInt data } ∧
    (cloudSetDeviceType ee data).eeprom = ee ∧
    (cloudSetDeviceType ee data).rebootDelay = some 1000 ∧
    (cloudSetLockListenDevType ee data).eepromWritten =
        some { ee with lockListenType := wiringToInt data } ∧
    (cloudSetLockListenDevType ee data).eeprom = ee ∧
    (cloudSetLockListenDevType ee data).rebootDelay = some 1000 := by
  have h := cloudSetType_success_eq ee data h1 h2
  rw [h.1, h.2]
  exact ⟨rfl, rfl, rfl, rfl, rfl, rfl⟩

/-- Witness for C8: setting type 7 over stored identity 105/105. -/
theorem cloudSetType_deferred_mutation_witness :
    (cloudSetDeviceType ⟨105, 105⟩ "7").eepromWritten = some ⟨7, 105⟩ ∧
    (cloudSetDeviceType ⟨105, 105⟩ "7").eeprom = ⟨105, 105⟩ ∧
    (cloudSetDeviceType ⟨105, 105⟩ "7").rebootDelay = some 1000 ∧
    (cloudSetLockListenDevType ⟨105, 105⟩ "7").eepromWritten = some ⟨105, 7⟩ ∧
    (cloudSetLockListenDevType ⟨105, 105⟩ "7").eeprom = ⟨105, 105⟩ ∧
    (cloudSetLockListenDevType ⟨105, 105⟩ "7").rebootDelay = some 1000 :=
  cloudSetType_deferred_mutation ⟨105, 105⟩ "7" (by decide) (by decide)

/-- C5: `fdbGetStationConfig` first clears `StationConfig` (so `isValid` is
false) and publishes exactly one outbound request; a subsequent response
whose deviceType equals the locally configured device type sets all six
`StationConfig` fields verbatim from the response and makes `isValid` true,
while a response with a mismatched deviceType leaves `isValid` false and
every field at its cleared value. -/
theorem station_config_handshake (s : SysState) (root_0 : ConfigDoc) :
    ((fdbGetStationConfig s).g_stationConfig = clearStationConfig ∧
     (fdbGetStationConfig s).g_stationConfig.isValid = false ∧
     (fdbGetStationConfig s).configPublishes = s.configPublishes + 1) ∧
    (jsonIntOfVariant root_0.deviceType = s.eeprom.deviceType →
      (fdbReceiveStationConfig (.parsed root_0) (fdbGetStationConfig s)).g_stationConfig =
        { isValid := true
          deviceType := jsonIntOfVariant root_0.deviceType
          deviceName := jsonStrOfVariant root_0.deviceName
          LCDName := jsonStrOfVariant root_0.LCDName
          photoDisplay := jsonStrOfVariant root_0.photoDisplay
          logEvent := jsonStrOfVariant root_0.logEvent
          OKKeywords := jsonStrOfVariant root_0.OKKeywords }) ∧
    (jsonIntOfVariant root_0.deviceType ≠ s.eeprom.deviceType →
      (fdbReceiveStationConfig (.parsed root_0) (fdbGetStationConfig s)).g_stationConfig =
        clearStationConfig) := by
  refine ⟨⟨rfl, rfl, rfl⟩, fun h => ?_, fun h => ?_⟩
  · have hb : (jsonIntOfVariant root_0.deviceType ==
        (fdbGetStationConfig s).eeprom.deviceType) = true := by
      simpa [fdbGetStationConfig] using h
    simp [fdbReceiveStationConfig, hb, setStationConfig]
  · simp [fdbReceiveStationConfig, fdbGetStationConfig, h]

/-- Witness for C5: device type 105; one matching response (type 105) and one
mismatched response (type 17). -/
theorem station_config_handshake_witness :
    (((fdbGetStationConfig
        ⟨.mlsWAITFORSTATIONCONFIG, 0, .llbxINIT, "", clearStationConfig, ⟨105, 105⟩,
          0, 0, 0, 0, 0⟩).g_stationConfig = clearStationConfig ∧
      (fdbGetStationConfig
        ⟨.mlsWAITFORSTATIONCONFIG, 0, .llbxINIT, "", clearStationConfig, ⟨105, 105⟩,
          0, 0, 0, 0, 0⟩).g_stationConfig.isValid = false ∧
      (fdbGetStationConfig
        ⟨.mlsWAITFORSTATIONCONFIG, 0, .llbxINIT, "", clearStationConfig, ⟨105, 105⟩,
          0, 0, 0, 0, 0⟩).configPublishes = 0 + 1) ∧
     (fdbReceiveStationConfig
        (.parsed ⟨some 105, some "Wood Shop", some "Shop", some "woodlog", some "photo1", some "ok go"⟩)
        (fdbGetStationConfig
          ⟨.mlsWAITFORSTATIONCONFIG, 0, .llbxINIT, "", clearStationConfig, ⟨105, 105⟩,
            0, 0, 0, 0, 0⟩)).g_stationConfig =
       { isValid := true, deviceType := 105, deviceName := "Wood Shop", LCDName := "Shop",
         photoDisplay := "photo1", logEvent := "woodlog", OKKeywords := "ok go" }) ∧
    (fdbReceiveStationConfig
        (.parsed ⟨some 17, some "Other", some "Other", some "otherlog", some "photo2", some "ok"⟩)
        (fdbGetStationConfig
          ⟨.mlsWAITFORSTATIONCONFIG, 0, .llbxINIT, "", clearStationConfig, ⟨105, 105⟩,
            0, 0, 0, 0, 0⟩)).g_stationConfig = clearStationConfig :=
  ⟨⟨(station_config_handshake
       ⟨.mlsWAITFORSTATIONCONFIG, 0, .llbxINIT, "", clearStationConfig, ⟨105, 105⟩,
         0, 0, 0, 0, 0⟩
       ⟨some 105, some "Wood Shop", some "Shop", some "woodlog", some "photo1", some "ok go"⟩).1,
    (station_config_handshake
       ⟨.mlsWAITFORSTATIONCONFIG, 0, .llbxINIT, "", clearStationConfig, ⟨105, 105⟩,
         0, 0, 0, 0, 0⟩
       ⟨some 105, some "Wood Shop", some "Shop", some "woodlog", some "photo1", some "ok go"⟩).2.1
      (by decide)⟩,
   (station_config_handshake
      ⟨.mlsWAITFORSTATIONCONFIG, 0, .llbxINIT, "", clearStationConfig, ⟨105, 105⟩,
        0, 0, 0, 0, 0⟩
      ⟨some 17, some "Other", some "Other", some "otherlog", some "photo2", some "ok"⟩).2.2
     (by decide)⟩

/-- The configuration placed in the run-invariant for C6: after the config
request at time `t0`, the loop is waiting with the request timestamp `t0`
and a still-invalid station config, or has already reached the error
state. -/
def WaitOrErr (t0 : Nat) (s : SysState) : Prop :=
  (s.mainloopState = .mlsWAITFORSTATIONCONFIG ∧ s.processStart = t0 ∧
    s.g_stationConfig.isValid = false) ∨
  s.mainloopState = .mlsERROR

/-- Helper: the error state is preserved by one tick. -/
theorem loop_error_absorbing (de : String → JsonParse CheckinDoc) (c : Consts)
    (m : Nat) (s : SysState) (h : s.mainloopState = .mlsERROR) :
    (loop de c m s).mainloopState = .mlsERROR := by
  simp [loop, h]

/-- Helper: the error state is preserved by any sequence of ticks. -/
theorem runTicks_error_absorbing (de : String → JsonParse CheckinDoc) (c : Consts)
    (ts : List Nat) : ∀ s : SysState, s.mainloopState = .mlsERROR →
    (runTicks de c ts s).mainloopState = .mlsERROR := by
  induction ts with
  | nil => exact fun s h => h
  | cons t ts ih =>
      intro s h
      simpa [runTicks] using ih (loop de c t s) (loop_error_absorbing de c t s h)

/-- Helper: `WaitOrErr` is preserved by one tick (at any tick time). -/
theorem loop_wait_or_err (de : String → JsonParse CheckinDoc) (c : Consts)
    (t0 m : Nat) (s : SysState) (h : WaitOrErr t0 s) : WaitOrErr t0 (loop de c m s) := by
  rcases h with ⟨h1, h2, h3⟩ | h1
  · simp only [loop, h1, h3, Bool.false_eq_true, if_false]
    by_cases hc : usub32 m s.processStart > 20000
    · rw [if_pos hc]; exact Or.inr rfl
    · rw [if_neg hc]; exact Or.inl ⟨h1, h2, h3⟩
  · exact Or.inr (loop_error_absorbing de c m s h1)

/-- Helper: `WaitOrErr` is preserved by any sequence of ticks. -/
theorem runTicks_wait_or_err (de : String → JsonParse CheckinDoc) (c : Consts)
    (t0 : Nat) (ts : List Nat) : ∀ s : SysState, WaitOrErr t0 s →
    WaitOrErr t0 (runTicks de c ts s) := by
  induction ts with
  | nil => exact fun s h => h
  | cons t ts ih =>
      intro s h
      simpa [runTicks] using ih (loop de c t s) (loop_wait_or_err de c t0 t s h)

/-- Helper: a tick strictly more than 20000 ms after the request time drives
a `WaitOrErr` state into the error state. -/
theorem loop_wait_timeout (de : String → JsonParse CheckinDoc) (c : Consts)
    (t0 m : Nat) (s : SysState) (h : WaitOrErr t0 s)
    (ht0 : t0 < 4294967296) (hm : m < 4294967296) (hgt : t0 + 20000 < m) :
    (loop de c m s).mainloopState = .mlsERROR := by
  rcases h with ⟨h1, h2, _⟩ | h1
  · have hc : usub32 m s.processStart > 20000 := by
      rw [h2]; unfold usub32; omega
    simp [loop, h1, hc]
  · exact loop_error_absorbing de c m s h1

/-- Helper: the first tick, taken in the request state with a device type
that does not bypass the handshake, requests the config and enters the wait
state with the request timestamp recorded and the config cleared. -/
theorem loop_askfor_to_wait (de : String → JsonParse CheckinDoc) (c : Consts)
    (t0 : Nat) (s : SysState)
    (hstate : s.mainloopState = .mlsASKFORSTATIONCONFIG)
    (h1 : s.eeprom.deviceType ≠ c.DEVICETYPE_UNDEFINED)
    (h2 : s.eeprom.deviceType ≠ c.DEVICETYPE_CHECKIN) :
    WaitOrErr t0 (loop de c t0 s) := by
  have hb1 : (s.eeprom.deviceType == c.DEVICETYPE_UNDEFINED) = false := by simpa using h1
  have hb2 : (s.eeprom.deviceType == c.DEVICETYPE_CHECKIN) = false := by simpa using h2
  left
  simp [loop, hstate, hb1, hb2, fdbGetStationConfig, clearStationConfig]

/-- C6: starting a run in the request state with a device type that does not
bypass the handshake, if no config response makes `isValid` true during the
run (no response events occur in it) and some tick happens more than
20000 ms after the request tick at `t0`, the dispatch loop is in the error
state at the end of the run; and from the error state no sequence of further
ticks ever reaches any other state. -/
theorem config_timeout_reaches_error (de : String → JsonParse CheckinDoc) (c : Consts)
    (s : SysState) (t0 tn : Nat) (ts : List Nat)
    (hstate : s.mainloopState = .mlsASKFORSTATIONCONFIG)
    (h1 : s.eeprom.deviceType ≠ c.DEVICETYPE_UNDEFINED)
    (h2 : s.eeprom.deviceType ≠ c.DEVICETYPE_CHECKIN)
    (hmem : tn ∈ ts) (ht0 : t0 < 4294967296) (htn : tn < 4294967296)
    (hgt : t0 + 20000 < tn) :
    (runTicks de c (t0 :: ts) s).mainloopState = .mlsERROR ∧
    ∀ (s' : SysState) (more : List Nat), s'.mainloopState = .mlsERROR →
      (runTicks de c more s').mainloopState = .mlsERROR := by
  refine ⟨?_, fun s' more h => runTicks_error_absorbing de c more s' h⟩
  obtain ⟨l1, l2, rfl⟩ := List.append_of_mem hmem
  have hsplit : runTicks de c (t0 :: (l1 ++ tn :: l2)) s =
      runTicks de c l2 (loop de c tn (runTicks de c l1 (loop de c t0 s))) := by
    simp [runTicks, List.foldl_append]
  rw [hsplit]
  have hw1 : WaitOrErr t0 (loop de c t0 s) := loop_askfor_to_wait de c t0 s hstate h1 h2
  have hw2 : WaitOrErr t0 (runTicks de c l1 (loop de c t0 s)) :=
    runTicks_wait_or_err de c t0 l1 _ hw1
  have herr : (loop de c tn (runTicks de c l1 (loop de c t0 s))).mainloopState = .mlsERROR :=
    loop_wait_timeout de c t0 tn _ hw2 ht0 htn hgt
  exact runTicks_error_absorbing de c l2 _ herr

/-- Witness for C6: device type 105 (no bypass, with bypass types 0 and 1),
request at time 0 and a single further tick at time 20001. -/
theorem config_timeout_reaches_error_witness :
    (runTicks (fun _ => .parseErr) ⟨12345, 0, 1⟩ (0 :: [20001])
      ⟨.mlsASKFORSTATIONCONFIG, 0, .llbxINIT, "", clearStationConfig, ⟨105, 105⟩,
        0, 0, 0, 0, 0⟩).mainloopState = .mlsERROR ∧
    ∀ (s' : SysState) (more : List Nat), s'.mainloopState = .mlsERROR →
      (runTicks (fun _ => .parseErr) ⟨12345, 0, 1⟩ more s').mainloopState = .mlsERROR :=
  config_timeout_reaches_error (fun _ => .parseErr) ⟨12345, 0, 1⟩
    ⟨.mlsASKFORSTATIONCONFIG, 0, .llbxINIT, "", clearStationConfig, ⟨105, 105⟩,
      0, 0, 0, 0, 0⟩ 0 20001 [20001]
    rfl (by decide) (by decide) (List.mem_singleton.mpr rfl) (by decide) (by decide) (by decide)

/-- C9: when a checkin notification arrives while the single-slot buffer is
still occupied, the callback drops the new message without modifying the
buffer and logs exactly one overrun (and changes nothing else); the next
dispatch-loop tick still processes the first message normally — it is handed
to `eventcheckin`, with the actuation and Unlock-record effects of that
message — and only then is the buffer cleared. -/
theorem checkin_overrun_second_dropped (de : String → JsonParse CheckinDoc) (c : Consts)
    (s : SysState) (event m2 : String) (m : Nat)
    (hbuf : s.mg_checkinEventData.length > 0)
    (hev : containsSubstr event "checkin" = true)
    (hmls : s.mainloopState = .mlsDEVICELOOP)
    (hllbx : s.llbxloopState = .llbxWAITFOREVENTDATA) :
    particleCallbackEventCheckin event m2 s = { s with overrunLogs := s.overrunLogs + 1 } ∧
    (particleCallbackEventCheckin event m2 s).mg_checkinEventData = s.mg_checkinEventData ∧
    (loop de c m (particleCallbackEventCheckin event m2 s)).mg_checkinEventData = "" ∧
    (loop de c m (particleCallbackEventCheckin event m2 s)).checkinsProcessed =
      s.checkinsProcessed + 1 ∧
    (loop de c m (particleCallbackEventCheckin event m2 s)).trips =
      s.trips + (eventcheckinStr de c s.eeprom s.mg_checkinEventData).trips ∧
    (loop de c m (particleCallbackEventCheckin event m2 s)).unlockLogs =
      s.unlockLogs + (eventcheckinStr de c s.eeprom s.mg_checkinEventData).unlockLogs := by
  have hcb : particleCallbackEventCheckin event m2 s =
      { s with overrunLogs := s.overrunLogs + 1 } := by
    simp [particleCallbackEventCheckin, hev, hbuf]
  refine ⟨hcb, ?_, ?_, ?_, ?_, ?_⟩ <;>
    rw [hcb] <;>
    simp [loop, loopLockbox, hmls, hllbx, hbuf]

/-- Witness for C9: buffered message "x", second message "y" arriving on the
"checkin" event, next tick at time 0 with a deserializer rejecting "x". -/
theorem checkin_overrun_second_dropped_witness :
    particleCallbackEventCheckin "checkin" "y"
      ⟨.mlsDEVICELOOP, 0, .llbxWAITFOREVENTDATA, "x", clearStationConfig, ⟨105, 105⟩,
        0, 0, 0, 0, 0⟩ =
      ⟨.mlsDEVICELOOP, 0, .llbxWAITFOREVENTDATA, "x", clearStationConfig, ⟨105, 105⟩,
        0, 0, 0 + 1, 0, 0⟩ ∧
    (particleCallbackEventCheckin "checkin" "y"
      ⟨.mlsDEVICELOOP, 0, .llbxWAITFOREVENTDATA, "x", clearStationConfig, ⟨105, 105⟩,
        0, 0, 0, 0, 0⟩).mg_checkinEventData = "x" ∧
    (loop (fun _ => .parseErr) ⟨12345, 0, 1⟩ 0
      (particleCallbackEventCheckin "checkin" "y"
        ⟨.mlsDEVICELOOP, 0, .llbxWAITFOREVENTDATA, "x", clearStationConfig, ⟨105, 105⟩,
          0, 0, 0, 0, 0⟩)).mg_checkinEventData = "" ∧
    (loop (fun _ => .parseErr) ⟨12345, 0, 1⟩ 0
      (particleCallbackEventCheckin "checkin" "y"
        ⟨.mlsDEVICELOOP, 0, .llbxWAITFOREVENTDATA, "x", clearStationConfig, ⟨105, 105⟩,
          0, 0, 0, 0, 0⟩)).checkinsProcessed = 0 + 1 ∧
    (loop (fun _ => .parseErr) ⟨12345, 0, 1⟩ 0
      (particleCallbackEventCheckin "checkin" "y"
        ⟨.mlsDEVICELOOP, 0, .llbxWAITFOREVENTDATA, "x", clearStationConfig, ⟨105, 105⟩,
          0, 0, 0, 0, 0⟩)).trips =
      0 + (eventcheckinStr (fun _ => .parseErr) ⟨12345, 0, 1⟩ ⟨105, 105⟩ "x").trips ∧
    (loop (fun _ => .parseErr) ⟨12345, 0, 1⟩ 0
      (particleCallbackEventCheckin "checkin" "y"
        ⟨.mlsDEVICELOOP, 0, .llbxWAITFOREVENTDATA, "x", clearStationConfig, ⟨105, 105⟩,
          0, 0, 0, 0, 0⟩)).unlockLogs =
      0 + (eventcheckinStr (fun _ => .parseErr) ⟨12345, 0, 1⟩ ⟨105, 105⟩ "x").unlockLogs :=
  checkin_overrun_second_dropped (fun _ => .parseErr) ⟨12345, 0, 1⟩
    ⟨.mlsDEVICELOOP, 0, .llbxWAITFOREVENTDATA, "x", clearStationConfig, ⟨105, 105⟩,
      0, 0, 0, 0, 0⟩ "checkin" "y" 0
    (by decide) (by decide) rfl rfl

/-- C10: a checkin notification whose payload is the empty string, arriving
while the buffer is empty, leaves the state exactly as it was — the
occupancy test is on string length, and storing the empty string leaves the
length at zero — and the next dispatch-loop tick changes nothing: the
message is never handed to `eventcheckin`, with no overrun log and no
parse-error outcome. -/
theorem checkin_empty_payload_lost (de : String → JsonParse CheckinDoc) (c : Consts)
    (s : SysState) (event : String) (m : Nat)
    (hbuf : s.mg_checkinEventData = "")
    (hev : containsSubstr event "checkin" = true)
    (hmls : s.mainloopState = .mlsDEVICELOOP)
    (hllbx : s.llbxloopState = .llbxWAITFOREVENTDATA) :
    particleCallbackEventCheckin event "" s = s ∧
    loop de c m s = s := by
  constructor
  · have hs : { s with mg_checkinEventData := "" } = s := by
      cases s
      simp only at hbuf
      rw [hbuf]
    rw [← hs]
    simp [particleCallbackEventCheckin, hev, hbuf]
  · simp [loop, loopLockbox, hmls, hllbx, hbuf]

/-- Witness for C10: the empty payload arriving on the "checkin" event with
an empty buffer, next tick at time 0. -/
theorem checkin_empty_payload_lost_witness :
    particleCallbackEventCheckin "checkin" ""
      ⟨.mlsDEVICELOOP, 0, .llbxWAITFOREVENTDATA, "", clearStationConfig, ⟨105, 105⟩,
        0, 0, 0, 0, 0⟩ =
      ⟨.mlsDEVICELOOP, 0, .llbxWAITFOREVENTDATA, "", clearStationConfig, ⟨105, 105⟩,
        0, 0, 0, 0, 0⟩ ∧
    loop (fun _ => .parseErr) ⟨12345, 0, 1⟩ 0
      ⟨.mlsDEVICELOOP, 0, .llbxWAITFOREVENTDATA, "", clearStationConfig, ⟨105, 105⟩,
        0, 0, 0, 0, 0⟩ =
      ⟨.mlsDEVICELOOP, 0, .llbxWAITFOREVENTDATA, "", clearStationConfig, ⟨105, 105⟩,
        0, 0, 0, 0, 0⟩ :=
  checkin_empty_payload_lost (fun _ => .parseErr) ⟨12345, 0, 1⟩
    ⟨.mlsDEVICELOOP, 0, .llbxWAITFOREVENTDATA, "", clearStationConfig, ⟨105, 105⟩,
      0, 0, 0, 0, 0⟩ "checkin" 0
    rfl (by decide) rfl rfl

end SolenoidBox
